import Mathlib

/-
Verification development for the doc2md-s3 document conversion pipeline.

The definitions below are a shallow embedding of the Python sources:
  src/doc2md-s3/markdown_optimizer.py  (MarkdownOptimizer)
  src/doc2md-s3/metadata_analyzer.py   (MetadataAnalyzer)
  src/doc2md-s3/docling_processor.py   (DoclingProcessor._extract_document_info)
  src/doc2md-s3/lambda_function.py     (lambda_handler, validate_event)
  src/doc2md-s3/s3_handler.py          (S3Handler.validate_s3_path)

Python strings are modeled as Lean String / List Char; the regular-expression
substitutions and searches of markdown_optimizer.py are modeled with a small
backtracking matcher (Doc2md.RE / Doc2md.mrun) that reproduces the semantics of
the Python re module for the exact patterns appearing in the source: leftmost
match, greedy repetition with backtracking, non-overlapping left-to-right
scanning for sub and findall, MULTILINE anchors where the source passes
re.MULTILINE. External effects (S3, Docling) are modeled as boolean/abstract
parameters of the handler environment, mirroring the truthiness checks and the
try/except structure of lambda_handler.
-/

set_option maxRecDepth 10000

namespace Doc2md

/-- Python whitespace class \s restricted to ASCII: space, tab, newline,
carriage return, vertical tab, form feed (the inputs of this development are
ASCII, where the Python definition coincides with this one). -/
def pyIsSpace (c : Char) : Bool :=
  c == ' ' || c == '\t' || c == '\n' || c == '\r' ||
  c == Char.ofNat 11 || c == Char.ofNat 12

/-- Python str.strip, which removes leading and trailing whitespace. -/
def pyStrip (l : List Char) : List Char :=
  ((l.dropWhile pyIsSpace).reverse.dropWhile pyIsSpace).reverse

/-- Python str.rstrip restricted to one strip character. -/
def pyRstrip (p : Char → Bool) (l : List Char) : List Char :=
  (l.reverse.dropWhile p).reverse

/-- Python str.replace: replace every non-overlapping occurrence of old by new,
scanning left to right.  Structural recursion on an explicit fuel; the wrapper
replAll supplies fuel that is always sufficient (each step consumes at least
one character of the input). -/
def replFuel (old new : List Char) : Nat → List Char → List Char
  | 0, l => l
  | _ + 1, [] => []
  | fuel + 1, c :: rest =>
    if old ≠ [] ∧ old.isPrefixOf (c :: rest) then
      new ++ replFuel old new fuel (List.drop old.length (c :: rest))
    else
      c :: replFuel old new fuel rest

/-- Python str.replace with always-sufficient fuel. -/
def replAll (old new l : List Char) : List Char :=
  replFuel old new (l.length + 1) l

/-- Python str.split on a separator character, keeping empty fields. -/
def pySplitChar (sep : Char) : List Char → List (List Char)
  | [] => [[]]
  | c :: rest =>
    let r := pySplitChar sep rest
    if c = sep then [] :: r
    else
      match r with
      | h :: t => (c :: h) :: t
      | [] => [[c]]

/-- Python sep.join on list-of-char fields. -/
def pyJoinChar (sep : Char) : List (List Char) → List Char
  | [] => []
  | [x] => x
  | x :: xs => x ++ sep :: pyJoinChar sep xs

/-- Number of whitespace-delimited tokens, mirroring len(text.split()) in
Python. -/
def countWordsAux : Nat → List Char → Nat
  | 0, _ => 0
  | _ + 1, [] => 0
  | fuel + 1, c :: rest =>
    if pyIsSpace c then countWordsAux fuel rest
    else 1 + countWordsAux fuel (rest.dropWhile (fun d => !pyIsSpace d))

/-- Python len(s.split()): the number of maximal runs of non-whitespace. -/
def countWords (s : String) : Nat :=
  countWordsAux (s.data.length + 1) s.data

/-- Substring containment, mirroring the Python expression pat in s. -/
def containsSeq (pat : List Char) : List Char → Bool
  | [] => pat.isEmpty
  | c :: rest => pat.isPrefixOf (c :: rest) || containsSeq pat rest

/-- Python pat in s on strings. -/
def strContains (s pat : String) : Bool :=
  containsSeq pat.data s.data

/-- ASCII lowercasing, mirroring Python str.lower on ASCII input. -/
def pyLowerChar (c : Char) : Char :=
  if 'A' ≤ c ∧ c ≤ 'Z' then Char.ofNat (c.toNat + 32) else c

/-- Python str.lower on ASCII strings. -/
def pyLower (s : String) : String :=
  String.mk (s.data.map pyLowerChar)

/-- Python s.endswith(suf). -/
def strEndsWith (s suf : String) : Bool :=
  suf.data.isSuffixOf s.data

/-!
## Regular-expression engine

A small backtracking matcher sufficient for the patterns in
markdown_optimizer.py, with the Python re semantics those patterns rely on:
character classes, greedy counted repetition with backtracking, capturing
groups, lookahead, start-of-string anchor, and MULTILINE line anchors.
-/

/-- Regular expression abstract syntax for the source's patterns. -/
inductive RE where
  /-- one character satisfying the predicate -/
  | cls (p : Char → Bool)
  /-- empty pattern -/
  | eps
  /-- concatenation -/
  | seq (a b : RE)
  /-- greedy repetition between lo and hi times (hi = none means unbounded) -/
  | rep (r : RE) (lo : Nat) (hi : Option Nat)
  /-- capturing group number i -/
  | grp (i : Nat) (r : RE)
  /-- zero-width lookahead -/
  | look (r : RE)
  /-- start of string (^ without MULTILINE) -/
  | bos
  /-- start of line (^ with MULTILINE) -/
  | bol
  /-- end of line ($ with MULTILINE) -/
  | eol

/-- Matcher position: characters before the cursor (reversed) and after. -/
structure Zip where
  bef : List Char
  aft : List Char

/-- Captured groups, most recent first. -/
abbrev Caps := List (Nat × List Char)

/-- Lookup of a captured group, empty when absent. -/
def capGet (i : Nat) (caps : Caps) : List Char :=
  match caps.find? (fun p => p.1 == i) with
  | some p => p.2
  | none => []

/-- Matcher result: final position and captures of the accepted branch. -/
abbrev MRes := Option (Zip × Caps)

/-- Backtracking matcher in continuation-passing style.  Alternatives are
tried in the order the Python re engine tries them: greedy repetitions consume
as much as possible first and give back on continuation failure.  Structural
recursion on fuel, which bounds only the nesting depth of the search. -/
def mrun : Nat → RE → Zip → Caps → (Zip → Caps → MRes) → MRes
  | 0, _, _, _, _ => none
  | _ + 1, .eps, st, caps, k => k st caps
  | _ + 1, .cls p, st, caps, k =>
    match st.aft with
    | [] => none
    | c :: rest => if p c then k ⟨c :: st.bef, rest⟩ caps else none
  | fuel + 1, .seq a b, st, caps, k =>
    mrun fuel a st caps (fun st' caps' => mrun fuel b st' caps' k)
  | fuel + 1, .grp i r, st, caps, k =>
    mrun fuel r st caps (fun st' caps' =>
      k st' ((i, st.aft.take (st'.bef.length - st.bef.length)) :: caps'))
  | fuel + 1, .look r, st, caps, k =>
    match mrun fuel r st caps (fun st' caps' => some (st', caps')) with
    | some _ => k st caps
    | none => none
  | _ + 1, .bos, st, caps, k =>
    if st.bef = [] then k st caps else none
  | _ + 1, .bol, st, caps, k =>
    match st.bef with
    | [] => k st caps
    | c :: _ => if c = '\n' then k st caps else none
  | _ + 1, .eol, st, caps, k =>
    match st.aft with
    | [] => k st caps
    | c :: _ => if c = '\n' then k st caps else none
  | fuel + 1, .rep r lo hi, st, caps, k =>
    match lo with
    | l + 1 =>
      mrun fuel r st caps (fun st' caps' =>
        mrun fuel (.rep r l (hi.map (· - 1))) st' caps' k)
    | 0 =>
      match hi with
      | some 0 => k st caps
      | _ =>
        match mrun fuel r st caps (fun st' caps' =>
          if st'.bef.length = st.bef.length then none
          else mrun fuel (.rep r 0 (hi.map (· - 1))) st' caps' k) with
        | some res => some res
        | none => k st caps

/-- Fuel that is comfortably larger than the search depth any of the source's
patterns can reach on the given remaining input. -/
def bigFuel (st : Zip) : Nat :=
  (st.aft.length + 2) * 64

/-- Attempt a match anchored at the current position. -/
def matchHere (r : RE) (st : Zip) : MRes :=
  mrun (bigFuel st) r st [] (fun st' caps => some (st', caps))

/-- Scanning engine of re.sub: try a match at every position left to right;
on a match emit the replacement and continue after the consumed characters
(advancing one character on an empty match, as Python does); otherwise copy
one character.  The accumulator holds the output reversed. -/
def subGo (r : RE) (repl : Caps → List Char) : Nat → Zip → List Char → List Char
  | 0, st, acc => acc.reverse ++ st.aft
  | fuel + 1, st, acc =>
    match matchHere r st with
    | some (st', caps) =>
      if st'.bef.length = st.bef.length then
        match st.aft with
        | [] => acc.reverse ++ repl caps
        | c :: rest => subGo r repl fuel ⟨c :: st.bef, rest⟩ (c :: (repl caps).reverse ++ acc)
      else
        subGo r repl fuel st' ((repl caps).reverse ++ acc)
    | none =>
      match st.aft with
      | [] => acc.reverse
      | c :: rest => subGo r repl fuel ⟨c :: st.bef, rest⟩ (c :: acc)

/-- Python re.sub(pattern, repl, s). -/
def pySub (r : RE) (repl : Caps → List Char) (l : List Char) : List Char :=
  subGo r repl (l.length + 1) ⟨[], l⟩ []

/-- Scanning engine of re.findall restricted to counting matches. -/
def cntGo (r : RE) : Nat → Zip → Nat → Nat
  | 0, _, n => n
  | fuel + 1, st, n =>
    match matchHere r st with
    | some (st', _) =>
      if st'.bef.length = st.bef.length then
        match st.aft with
        | [] => n + 1
        | c :: rest => cntGo r fuel ⟨c :: st.bef, rest⟩ (n + 1)
      else
        cntGo r fuel st' (n + 1)
    | none =>
      match st.aft with
      | [] => n
      | c :: rest => cntGo r fuel ⟨c :: st.bef, rest⟩ n

/-- Python len(re.findall(pattern, s)). -/
def pyCount (r : RE) (l : List Char) : Nat :=
  cntGo r (l.length + 1) ⟨[], l⟩ 0

/-- Literal single character pattern. -/
def chr (c : Char) : RE := .cls (fun d => d == c)

/-- Concatenation of a list of patterns. -/
def seqAll (rs : List RE) : RE := rs.foldr .seq .eps

/-- Greedy unbounded star. -/
def star (r : RE) : RE := .rep r 0 none

end Doc2md

namespace Doc2md

/-!
## MarkdownOptimizer (src/doc2md-s3/markdown_optimizer.py)

The stats dictionary created in MarkdownOptimizer.__init__ and mutated by the
passes is modeled as an explicit Stats record threaded through the pass
functions.
-/

/-- Stats dictionary of MarkdownOptimizer.__init__. -/
structure Stats where
  original_length : Nat := 0
  optimized_length : Nat := 0
  tables_processed : Nat := 0
  headings_processed : Nat := 0
  links_processed : Nat := 0
  optimizations_applied : List String := []
deriving Repr, DecidableEq

/-- Character class [^\n]. -/
def notNl (c : Char) : Bool := !(c == '\n')

/-- Character class [\n\r]. -/
def nlcr (c : Char) : Bool := c == '\n' || c == '\r'

/-- Character class [-*+]. -/
def bulletChar (c : Char) : Bool := c == '-' || c == '*' || c == '+'

/-- Pattern ' +$' with MULTILINE of _clean_whitespace. -/
def reTrailSpaces : RE := seqAll [.rep (chr ' ') 1 none, .eol]

/-- Pattern '\n{3,}' of _clean_whitespace. -/
def reManyNl : RE := .rep (chr '\n') 3 none

/-- MarkdownOptimizer._clean_whitespace. -/
def cleanWhitespace (content : String) (stats : Stats) : String × Stats :=
  let c1 := pySub reTrailSpaces (fun _ => []) content.data
  let c2 := pySub reManyNl (fun _ => ['\n', '\n']) c1
  let c3 := pyStrip c2
  (String.mk c3,
   { stats with optimizations_applied := stats.optimizations_applied ++ ["whitespace_cleanup"] })

/-- Group body (#{1,6}) of the heading patterns. -/
def reHashes : RE := .rep (chr '#') 1 (some 6)

/-- Pattern '\n(#{1,6})\s*([^\n]+)\n' of _optimize_headings. -/
def reHeadingMid : RE :=
  seqAll [chr '\n', .grp 1 reHashes, star (.cls pyIsSpace),
          .grp 2 (.rep (.cls notNl) 1 none), chr '\n']

/-- Replacement '\n\n\1 \2\n\n' of _optimize_headings. -/
def replHeadingMid (caps : Caps) : List Char :=
  '\n' :: '\n' :: capGet 1 caps ++ ' ' :: capGet 2 caps ++ ['\n', '\n']

/-- Pattern '^(#{1,6})\s*([^\n]+)\n' (no MULTILINE) of _optimize_headings. -/
def reHeadingStart : RE :=
  seqAll [.bos, .grp 1 reHashes, star (.cls pyIsSpace),
          .grp 2 (.rep (.cls notNl) 1 none), chr '\n']

/-- Replacement '\1 \2\n\n' of _optimize_headings. -/
def replHeadingStart (caps : Caps) : List Char :=
  capGet 1 caps ++ ' ' :: capGet 2 caps ++ ['\n', '\n']

/-- Pattern '^#{1,6}\s+.+$' with MULTILINE of _optimize_headings. -/
def reHeadingCount : RE :=
  seqAll [.bol, reHashes, .rep (.cls pyIsSpace) 1 none, .rep (.cls notNl) 1 none, .eol]

/-- MarkdownOptimizer._optimize_headings. -/
def optimizeHeadings (content : String) (stats : Stats) : String × Stats :=
  let c1 := pySub reHeadingMid replHeadingMid content.data
  let c2 := pySub reHeadingStart replHeadingStart c1
  let headings := pyCount reHeadingCount c2
  let stats := { stats with headings_processed := headings }
  let stats :=
    if headings ≠ 0 then
      { stats with optimizations_applied := stats.optimizations_applied ++ ["heading_optimization"] }
    else stats
  (String.mk c2, stats)

/-- Table row alternative '\|[^\n]+\|[\n\r]*' of the table pattern. -/
def reTableRow : RE :=
  seqAll [chr '|', .rep (.cls notNl) 1 none, chr '|', star (.cls nlcr)]

/-- Separator alternative '\|[\s\-:]+\|[\n\r]*' of the table pattern. -/
def reTableSep : RE :=
  seqAll [chr '|', .rep (.cls (fun c => pyIsSpace c || c == '-' || c == ':')) 1 none,
          chr '|', star (.cls nlcr)]

/-- Table pattern '(\|[^\n]+\|[\n\r]*)+(\|[\s\-:]+\|[\n\r]*)?(\|[^\n]+\|[\n\r]*)*'
of _optimize_tables (groups dropped: only the number of matches is used). -/
def reTablePattern : RE :=
  seqAll [.rep reTableRow 1 none, .rep reTableSep 0 (some 1), .rep reTableRow 0 none]

/-- Pattern '\n(\|[^\n]+\|)' of _optimize_tables. -/
def reTableBefore : RE :=
  seqAll [chr '\n', .grp 1 (seqAll [chr '|', .rep (.cls notNl) 1 none, chr '|'])]

/-- Pattern '(\|[^\n]+\|)\n([^\|\n])' of _optimize_tables. -/
def reTableAfter : RE :=
  seqAll [.grp 1 (seqAll [chr '|', .rep (.cls notNl) 1 none, chr '|']), chr '\n',
          .grp 2 (.cls (fun c => !(c == '|') && !(c == '\n')))]

/-- MarkdownOptimizer._clean_table_row. -/
def cleanTableRow (row : List Char) : List Char :=
  let cells := pySplitChar '|' row
  let n := cells.length
  let cleaned := cells.foldl
    (fun (acc : List (List Char)) cell =>
      if cell = [] ∧ (acc.length = 0 ∨ acc.length = n - 1) then acc ++ [cell]
      else acc ++ [pyStrip cell])
    []
  pyJoinChar '|' cleaned

/-- MarkdownOptimizer._optimize_tables. -/
def optimizeTables (content : String) (stats : Stats) : String × Stats :=
  let tables := pyCount reTablePattern content.data
  if tables ≠ 0 then
    let c1 := pySub reTableBefore (fun caps => '\n' :: '\n' :: capGet 1 caps) content.data
    let c2 := pySub reTableAfter
      (fun caps => capGet 1 caps ++ '\n' :: '\n' :: capGet 2 caps) c1
    let lines := pySplitChar '\n' c2
    let processed := lines.map (fun line =>
      if line.contains '|' ∧ (pyStrip line).headD ' ' = '|' then cleanTableRow line
      else line)
    let c3 := pyJoinChar '\n' processed
    (String.mk c3,
     { stats with tables_processed := tables,
                  optimizations_applied := stats.optimizations_applied ++ ["table_optimization"] })
  else (content, stats)

/-- List item body '[-*+]\s+[^\n]+' of _optimize_lists. -/
def reBulletItem : RE :=
  seqAll [.cls bulletChar, .rep (.cls pyIsSpace) 1 none, .rep (.cls notNl) 1 none]

/-- Numbered item body '\d+\.\s+[^\n]+' of _optimize_lists. -/
def reNumItem : RE :=
  seqAll [.rep (.cls Char.isDigit) 1 none, chr '.', .rep (.cls pyIsSpace) 1 none,
          .rep (.cls notNl) 1 none]

/-- Pattern '\n([-*+]\s+[^\n]+)' of _optimize_lists. -/
def reListBefore : RE := seqAll [chr '\n', .grp 1 reBulletItem]

/-- Pattern '([-*+]\s+[^\n]+)\n([^\-\*\+\s\n])' of _optimize_lists. -/
def reListAfter : RE :=
  seqAll [.grp 1 reBulletItem, chr '\n',
          .grp 2 (.cls (fun c => !bulletChar c && !pyIsSpace c && !(c == '\n')))]

/-- Pattern '\n(\d+\.\s+[^\n]+)' of _optimize_lists. -/
def reNumBefore : RE := seqAll [chr '\n', .grp 1 reNumItem]

/-- Pattern '(\d+\.\s+[^\n]+)\n([^\d\s\n])' of _optimize_lists. -/
def reNumAfter : RE :=
  seqAll [.grp 1 reNumItem, chr '\n',
          .grp 2 (.cls (fun c => !c.isDigit && !pyIsSpace c && !(c == '\n')))]

/-- Pattern '^[-*+]\s+.+$' with MULTILINE of _optimize_lists. -/
def reBulletCount : RE :=
  seqAll [.bol, .cls bulletChar, .rep (.cls pyIsSpace) 1 none,
          .rep (.cls notNl) 1 none, .eol]

/-- Pattern '^\d+\.\s+.+$' with MULTILINE of _optimize_lists. -/
def reNumCount : RE :=
  seqAll [.bol, .rep (.cls Char.isDigit) 1 none, chr '.',
          .rep (.cls pyIsSpace) 1 none, .rep (.cls notNl) 1 none, .eol]

/-- Replacement '\n\n\1' shared by the list and table spacing substitutions. -/
def replNlNl1 (caps : Caps) : List Char := '\n' :: '\n' :: capGet 1 caps

/-- Replacement '\1\n\n\2' shared by the list spacing substitutions. -/
def repl1NlNl2 (caps : Caps) : List Char :=
  capGet 1 caps ++ '\n' :: '\n' :: capGet 2 caps

/-- MarkdownOptimizer._optimize_lists. -/
def optimizeLists (content : String) (stats : Stats) : String × Stats :=
  let c1 := pySub reListBefore replNlNl1 content.data
  let c2 := pySub reListAfter repl1NlNl2 c1
  let c3 := pySub reNumBefore replNlNl1 c2
  let c4 := pySub reNumAfter repl1NlNl2 c3
  let listItems := pyCount reBulletCount c4
  let numberedItems := pyCount reNumCount c4
  let stats :=
    if listItems ≠ 0 ∨ numberedItems ≠ 0 then
      { stats with optimizations_applied := stats.optimizations_applied ++ ["list_optimization"] }
    else stats
  (String.mk c4, stats)

/-- Pattern '\[([^\]]+)\]\(([^)]+)\)' of _optimize_links. -/
def reLinkFind : RE :=
  seqAll [chr '[', .grp 1 (.rep (.cls (fun c => !(c == ']'))) 1 none), chr ']',
          chr '(', .grp 2 (.rep (.cls (fun c => !(c == ')'))) 1 none), chr ')']

/-- Pattern '\[\s*([^\]]+)\s*\]\(\s*([^)]+)\s*\)' of _optimize_links. -/
def reLinkSub : RE :=
  seqAll [chr '[', star (.cls pyIsSpace),
          .grp 1 (.rep (.cls (fun c => !(c == ']'))) 1 none),
          star (.cls pyIsSpace), chr ']',
          chr '(', star (.cls pyIsSpace),
          .grp 2 (.rep (.cls (fun c => !(c == ')'))) 1 none),
          star (.cls pyIsSpace), chr ')']

/-- Replacement '[\1](\2)' of _optimize_links. -/
def replLink (caps : Caps) : List Char :=
  '[' :: capGet 1 caps ++ ']' :: '(' :: capGet 2 caps ++ [')']

/-- MarkdownOptimizer._optimize_links. -/
def optimizeLinks (content : String) (stats : Stats) : String × Stats :=
  let links := pyCount reLinkFind content.data
  let stats := { stats with links_processed := links }
  if links ≠ 0 then
    (String.mk (pySub reLinkSub replLink content.data),
     { stats with optimizations_applied := stats.optimizations_applied ++ ["link_optimization"] })
  else (content, stats)

/-- Pattern '\n#{1,6}\s*[^\n]*\n\n(?=#{1,6})' of _remove_empty_sections. -/
def reEmptySection : RE :=
  seqAll [chr '\n', reHashes, star (.cls pyIsSpace), star (.cls notNl),
          chr '\n', chr '\n', .look reHashes]

/-- Pattern '\n{3,}(#{1,6})' of _remove_empty_sections. -/
def reBlanksBeforeHeading : RE :=
  seqAll [.rep (chr '\n') 3 none, .grp 1 reHashes]

/-- MarkdownOptimizer._remove_empty_sections. -/
def removeEmptySections (content : String) (stats : Stats) : String × Stats :=
  let c1 := pySub reEmptySection (fun _ => ['\n']) content.data
  let c2 := pySub reBlanksBeforeHeading replNlNl1 c1
  (String.mk c2,
   { stats with optimizations_applied := stats.optimizations_applied ++ ["empty_section_removal"] })

/-- Content transformation of _normalize_line_endings on character lists. -/
def nleList (l : List Char) : List Char :=
  let a := replAll ['\r'] ['\n'] (replAll ['\r', '\n'] ['\n'] l)
  pyRstrip (fun c => c == '\n') a ++ ['\n']

/-- Content transformation of MarkdownOptimizer._normalize_line_endings:
convert CRLF and CR to LF, then ensure exactly one trailing newline. -/
def normalizeLineEndingsContent (s : String) : String :=
  String.mk (nleList s.data)

/-- MarkdownOptimizer._normalize_line_endings. -/
def normalizeLineEndingsPass (content : String) (stats : Stats) : String × Stats :=
  (normalizeLineEndingsContent content,
   { stats with optimizations_applied := stats.optimizations_applied ++ ["line_ending_normalization"] })

/-- Pass sequence in the try block of MarkdownOptimizer.optimize_markdown. -/
def runPasses (content : String) (stats : Stats) : String × Stats :=
  let p1 := cleanWhitespace content stats
  let p2 := optimizeHeadings p1.1 p1.2
  let p3 := optimizeTables p2.1 p2.2
  let p4 := optimizeLists p3.1 p3.2
  let p5 := optimizeLinks p4.1 p4.2
  let p6 := removeEmptySections p5.1 p5.2
  let p7 := normalizeLineEndingsPass p6.1 p6.2
  p7

/-- Result dictionary of MarkdownOptimizer.optimize_markdown. -/
structure OptResult where
  success : Bool
  optimized_content : String
  error : Option String := none
  stats : Stats
deriving Repr, DecidableEq

/-- Stats initialization at the top of the try block of optimize_markdown. -/
def statsInit (stats : Stats) (content : String) : Stats :=
  { stats with original_length := content.length }

/-- MarkdownOptimizer.optimize_markdown with the pass pipeline abstracted: the
pipeline either returns transformed content and stats, or raises, which is
modeled as Except.error carrying the Python exception message and the stats
state at the time of the exception.  The second component of the result is the
instance's stats field after the call. -/
def optimizeMarkdownWith
    (applyPasses : String → Stats → Except (String × Stats) (String × Stats))
    (selfStats : Stats) (markdown_content : String) : OptResult × Stats :=
  let s0 := statsInit selfStats markdown_content
  match applyPasses markdown_content s0 with
  | .ok p =>
    let s2 := { p.2 with optimized_length := p.1.length }
    ({ success := true, optimized_content := p.1, error := none, stats := s2 }, s2)
  | .error q =>
    ({ success := false, optimized_content := markdown_content, error := some q.1,
       stats := q.2 }, q.2)

/-- Real pass pipeline: pure string rewriting that never raises. -/
def applyPassesReal (content : String) (stats : Stats) :
    Except (String × Stats) (String × Stats) :=
  .ok (runPasses content stats)

/-- MarkdownOptimizer.optimize_markdown with the real passes. -/
def optimizeMarkdown (selfStats : Stats) (content : String) : OptResult × Stats :=
  optimizeMarkdownWith applyPassesReal selfStats content

/-- Content transformation of one full optimize_markdown call on a fresh
optimizer instance. -/
def normalizeContent (s : String) : String :=
  (optimizeMarkdown {} s).1.optimized_content

end Doc2md

namespace Doc2md

/-!
## DoclingProcessor._extract_document_info (src/doc2md-s3/docling_processor.py)

The duck-typed structured document is modeled with Option fields: a missing
pages or elements attribute is Option.none (the source guards every access
with hasattr).  A failure while accessing the conversion result at all (the
catch-all except branch) is modeled as the Except.error constructor of the
function input.
-/

/-- Docling element: a free-text label and optional text. -/
structure Element where
  label : String
  text : Option String := none

/-- Docling page: an optional ordered element sequence (hasattr-guarded). -/
structure Page where
  elements : Option (List Element) := none

/-- Docling structured document: an optional page sequence (hasattr-guarded). -/
structure StructuredDocument where
  pages : Option (List Page) := none

/-- Dictionary built by _extract_document_info. -/
structure DocInfo where
  page_count : Nat := 0
  table_count : Nat := 0
  heading_count : Nat := 0
  paragraph_count : Nat := 0
  list_count : Nat := 0
  formula_count : Nat := 0
  total_characters : Nat := 0
  total_words : Nat := 0
  extraction_error : Option String := none
deriving Repr, DecidableEq

/-- Element categories recognized by the label classification chain. -/
inductive Category where
  | table
  | heading
  | paragraph
  | listCat
  | formula
deriving Repr, DecidableEq

/-- Specification-side reading of the if/elif chain over element labels: the
first substring match in the precedence order
table > heading/title > paragraph/text > list > formula/equation wins;
no match yields none. -/
def classifyLabel (label : String) : Option Category :=
  let t := pyLower label
  if strContains t "table" then some .table
  else if strContains t "heading" || strContains t "title" then some .heading
  else if strContains t "paragraph" || strContains t "text" then some .paragraph
  else if strContains t "list" then some .listCat
  else if strContains t "formula" || strContains t "equation" then some .formula
  else none

/-- Label-classification step of the element loop in _extract_document_info,
mirroring the if/elif chain of the source. -/
def countElementLabel (d : DocInfo) (e : Element) : DocInfo :=
  let element_type := pyLower e.label
  if strContains element_type "table" then
    { d with table_count := d.table_count + 1 }
  else if strContains element_type "heading" || strContains element_type "title" then
    { d with heading_count := d.heading_count + 1 }
  else if strContains element_type "paragraph" || strContains element_type "text" then
    { d with paragraph_count := d.paragraph_count + 1 }
  else if strContains element_type "list" then
    { d with list_count := d.list_count + 1 }
  else if strContains element_type "formula" || strContains element_type "equation" then
    { d with formula_count := d.formula_count + 1 }
  else d

/-- Character and word counting step of the element loop, guarded by the
Python truthiness test if hasattr(element, 'text') and element.text. -/
def countElementText (d : DocInfo) (e : Element) : DocInfo :=
  match e.text with
  | some t =>
    if t ≠ "" then
      { d with total_characters := d.total_characters + t.length,
               total_words := d.total_words + countWords t }
    else d
  | none => d

/-- Per-element step of _extract_document_info: classification, then text
accumulation. -/
def countElement (d : DocInfo) (e : Element) : DocInfo :=
  countElementText (countElementLabel d e) e

/-- Element loop over one page (skipped when the page has no elements
attribute). -/
def countPage (d : DocInfo) (p : Page) : DocInfo :=
  match p.elements with
  | some es => es.foldl countElement d
  | none => d

/-- DoclingProcessor._extract_document_info.  The input is the conversion
result: Except.ok doc when the document is accessible, Except.error e when
any exception (message e) is raised inside the try block. -/
def extractDocumentInfo (result : Except String StructuredDocument) : DocInfo :=
  match result with
  | .ok doc =>
    let base : DocInfo :=
      { page_count := match doc.pages with | some ps => ps.length | none => 0 }
    match doc.pages with
    | some ps => ps.foldl countPage base
    | none => base
  | .error e =>
    { page_count := 0, table_count := 0, heading_count := 0, paragraph_count := 0,
      list_count := 0, formula_count := 0, total_characters := 0, total_words := 0,
      extraction_error := some e }

/-- All elements of a document in loop order, empty sequences standing for
missing attributes. -/
def docElements (doc : StructuredDocument) : List Element :=
  (doc.pages.getD []).flatMap (fun p => p.elements.getD [])

/-- Characters contributed by one element to total_characters. -/
def elemChars (e : Element) : Nat :=
  match e.text with
  | some t => if t ≠ "" then t.length else 0
  | none => 0

/-- Words contributed by one element to total_words. -/
def elemWords (e : Element) : Nat :=
  match e.text with
  | some t => if t ≠ "" then countWords t else 0
  | none => 0

/-!
## MetadataAnalyzer (src/doc2md-s3/metadata_analyzer.py)
-/

/-- Banker's rounding of a rational to the nearest integer, as Python round
does on the float values of this computation. -/
def roundHalfEven (q : ℚ) : ℤ :=
  let f := ⌊q⌋
  let r := q - f
  if r < 1/2 then f
  else if 1/2 < r then f + 1
  else if f % 2 = 0 then f else f + 1

/-- Python round(x, 2). -/
def pyRound2 (q : ℚ) : ℚ :=
  (roundHalfEven (q * 100) : ℚ) / 100

/-- MetadataAnalyzer._calculate_optimization_ratio, over the stats record of
the optimizer (dictionary lookups with default 0 in the source). -/
def calculateOptimizationRatio (markdown_stats : Stats) : ℚ :=
  let original := markdown_stats.original_length
  let optimized := markdown_stats.optimized_length
  if original = 0 then 0
  else pyRound2 (((original : ℚ) - (optimized : ℚ)) / (original : ℚ) * 100)

/-- markdown_output section of the metadata report built by
MetadataAnalyzer.generate_metadata. -/
structure MarkdownOutputSection where
  original_length : Nat
  optimized_length : Nat
  optimization_ratio : ℚ
  tables_processed : Nat
  headings_processed : Nat
  links_processed : Nat
deriving Repr, DecidableEq

/-- The markdown_output part of the metadata dictionary assembled by
generate_metadata (optimizations_applied is carried by Stats). -/
def markdownOutputSection (markdown_stats : Stats) : MarkdownOutputSection :=
  { original_length := markdown_stats.original_length,
    optimized_length := markdown_stats.optimized_length,
    optimization_ratio := calculateOptimizationRatio markdown_stats,
    tables_processed := markdown_stats.tables_processed,
    headings_processed := markdown_stats.headings_processed,
    links_processed := markdown_stats.links_processed }

/-!
## lambda_handler (src/doc2md-s3/lambda_function.py) and
S3Handler.validate_s3_path (src/doc2md-s3/s3_handler.py)

The external collaborators (S3 download/upload, Docling) are modeled by an
environment of outcomes; the handler body mirrors the source's control flow:
every raise inside the try block lands in the except branch that builds the
status-500 response.
-/

/-- S3Handler.validate_s3_path. -/
def validateS3Path (bucket key : String) : Bool × String :=
  if bucket = "" ∨ bucket.length < 3 ∨ bucket.length > 63 then
    (false, "Invalid bucket name length")
  else if key = "" ∨ key.length > 1024 then
    (false, "Invalid key length")
  else if strContains key "//" ∨ key.data.headD ' ' = '/' ∨ key.data.getLastD ' ' = '/' then
    (false, "Invalid key format")
  else (true, "")

/-- Input event of lambda_handler; the four required fields are present by
typing, metadata_key is optional as in the source (event.get). -/
structure Event where
  source_bucket : String
  source_key : String
  output_bucket : String
  output_key : String
  metadata_key : Option String := none

/-- validate_event of lambda_function.py (field presence holds by typing). -/
def validateEvent (event : Event) : Bool × Option String :=
  let sourceCheck := validateS3Path event.source_bucket event.source_key
  if ¬sourceCheck.1 then
    (false, some ("Invalid source S3 path: " ++ sourceCheck.2))
  else
    let outputCheck := validateS3Path event.output_bucket event.output_key
    if ¬outputCheck.1 then
      (false, some ("Invalid output S3 path: " ++ outputCheck.2))
    else if ¬strEndsWith (pyLower event.source_key) ".pdf" then
      (false, some "Source file must be a PDF")
    else if ¬strEndsWith (pyLower event.output_key) ".md" then
      (false, some "Output file must have .md extension")
    else (true, none)

/-- Outcomes of the external collaborators for one run. -/
structure Env where
  /-- result of s3_handler.download_file -/
  download_ok : Bool
  /-- success flag of docling_processor.process_document -/
  docling_success : Bool
  /-- markdown_content of the docling result -/
  docling_markdown : String
  /-- pass pipeline of the optimizer (Except.error models a raise) -/
  applyPasses : String → Stats → Except (String × Stats) (String × Stats)
  /-- result of s3_handler.upload_content for the Markdown object -/
  md_upload_ok : Bool
  /-- result of s3_handler.upload_content for the metadata object -/
  meta_upload_ok : Bool

/-- Observable outcome of one lambda_handler run: HTTP status code, the
(key, content_type) pairs of the upload_content calls that were made in
order, and the content string passed to the Markdown upload when reached. -/
structure HandlerResponse where
  statusCode : Nat
  uploads : List (String × String)
  markdown_body : Option String
deriving Repr, DecidableEq

/-- lambda_handler of lambda_function.py over the environment model.  The
raise statements of the try block all flow to the except branch, which
returns statusCode 500; validation failure returns 400 before any I/O. -/
def lambdaHandler (env : Env) (event : Event) : HandlerResponse :=
  if ¬(validateEvent event).1 then
    { statusCode := 400, uploads := [], markdown_body := none }
  else
    let metadata_key :=
      event.metadata_key.getD
        (String.mk (replAll ".md".data "_metadata.json".data event.output_key.data))
    if ¬env.download_ok then
      { statusCode := 500, uploads := [], markdown_body := none }
    else if ¬env.docling_success then
      { statusCode := 500, uploads := [], markdown_body := none }
    else
      let markdown_content := env.docling_markdown
      let optimization_result := (optimizeMarkdownWith env.applyPasses {} markdown_content).1
      let optimized_content :=
        if ¬optimization_result.success then markdown_content
        else optimization_result.optimized_content
      let mdUpload := (event.output_key, "text/markdown")
      if ¬env.md_upload_ok then
        { statusCode := 500, uploads := [mdUpload], markdown_body := some optimized_content }
      else
        let metaUpload := (metadata_key, "application/json")
        if ¬env.meta_upload_ok then
          { statusCode := 500, uploads := [mdUpload, metaUpload],
            markdown_body := some optimized_content }
        else
          { statusCode := 200, uploads := [mdUpload, metaUpload],
            markdown_body := some optimized_content }

end Doc2md

namespace Doc2md

/-!
## Concrete fixtures and specification-side helper definitions
-/

/-- End-to-end scenario input of the specification. -/
def e2eInput : String := "#Title\ntext\n\n\n\n- item1\n- item2\n"

/-- Actual output of the normalization pipeline on e2eInput. -/
def e2eActual : String := "# Title\n\ntext\n\n\n- item1\n\n- item2\n"

/-- Output the specification's end-to-end scenario describes: one blank line
after the heading, one blank line before the list, list block unchanged. -/
def e2eClaimed : String := "# Title\n\ntext\n\n- item1\n- item2\n"

/-- Input on which the full pipeline is not idempotent. -/
def nonIdemInput : String := "a\n# H\nb"

/-- Valid event with an explicit metadata destination. -/
def eventA : Event :=
  { source_bucket := "input-bucket", source_key := "docs/sample.pdf",
    output_bucket := "output-bucket", output_key := "processed/sample.md",
    metadata_key := some "processed/sample_meta.json" }

/-- Valid event without a metadata destination. -/
def eventNoMeta : Event :=
  { source_bucket := "input-bucket", source_key := "docs/sample.pdf",
    output_bucket := "output-bucket", output_key := "processed/sample.md",
    metadata_key := none }

/-- Environment where every external call succeeds. -/
def envAllOk : Env :=
  { download_ok := true, docling_success := true, docling_markdown := "hello",
    applyPasses := applyPassesReal, md_upload_ok := true, meta_upload_ok := true }

/-- Environment where only the metadata upload fails. -/
def envMetaFail : Env :=
  { download_ok := true, docling_success := true, docling_markdown := "hello",
    applyPasses := applyPassesReal, md_upload_ok := true, meta_upload_ok := false }

/-- Environment where the Markdown content upload fails. -/
def envMdFail : Env :=
  { download_ok := true, docling_success := true, docling_markdown := "hello",
    applyPasses := applyPassesReal, md_upload_ok := false, meta_upload_ok := true }

/-- Pass pipeline that raises, for exercising the except branch of
optimize_markdown. -/
def failingPasses : String → Stats → Except (String × Stats) (String × Stats) :=
  fun _ s => .error ("pass failure", s)

/-- Environment where the optimizer's internal passes raise. -/
def envOptFail : Env :=
  { download_ok := true, docling_success := true, docling_markdown := "hello",
    applyPasses := failingPasses, md_upload_ok := true, meta_upload_ok := true }

/-- Indicator of an element being classified into a given category. -/
def catInd (c : Category) (e : Element) : Nat :=
  if classifyLabel e.label = some c then 1 else 0

/-- Relation between the optimizer stats before and after a pass: the rule
log only grows at the end and original_length is untouched. -/
def StatsExtends (s s' : Stats) : Prop :=
  s'.original_length = s.original_length ∧
  ∃ t, s'.optimizations_applied = s.optimizations_applied ++ t

end Doc2md

namespace Doc2md

/-!
## Helper lemmas
-/

theorem replFuel_singleton_not_mem {c : Char} {new : List Char} (hc : c ∉ new) :
    ∀ (fuel : Nat) (l : List Char), l.length < fuel → c ∉ replFuel [c] new fuel l := by
  intro fuel
  induction fuel with
  | zero => intro l h; omega
  | succ n ih =>
    intro l h
    cases l with
    | nil => simp [replFuel]
    | cons d rest =>
      rw [replFuel]
      split
      · intro hmem
        rcases List.mem_append.1 hmem with hmem | hmem
        · exact hc hmem
        · have hlen : rest.length < n := by
            simpa using Nat.lt_of_succ_lt_succ h
          have : c ∉ replFuel [c] new n rest := ih rest hlen
          simp only [List.length_cons, List.length_singleton, List.drop_succ_cons,
            List.drop_zero] at hmem
          exact this hmem
      · next hp =>
        have hcd : ¬c = d := by
          intro heq
          exact hp ⟨by simp, by simp [List.isPrefixOf, heq]⟩
        intro hmem
        rcases List.mem_cons.1 hmem with hmem | hmem
        · exact hcd hmem
        · exact ih rest (by simpa using Nat.lt_of_succ_lt_succ h) hmem

theorem replFuel_not_occur {c : Char} {o new : List Char} :
    ∀ (fuel : Nat) (l : List Char), l.length < fuel → c ∉ l →
      replFuel (c :: o) new fuel l = l := by
  intro fuel
  induction fuel with
  | zero => intro l h; omega
  | succ n ih =>
    intro l h hnc
    cases l with
    | nil => simp [replFuel]
    | cons d rest =>
      rw [replFuel]
      split
      · next hp =>
        exfalso
        have hcd : c = d := by
          have := hp.2
          simp only [List.isPrefixOf, Bool.and_eq_true, beq_iff_eq] at this
          exact this.1
        exact hnc (hcd ▸ List.mem_cons_self d rest)
      · have : replFuel (c :: o) new n rest = rest :=
          ih rest (by simpa using Nat.lt_of_succ_lt_succ h)
            (fun hm => hnc (List.mem_cons_of_mem d hm))
        rw [this]

theorem pyRstrip_append_pos (p : Char → Bool) (x : List Char) (ch : Char)
    (h : p ch = true) : pyRstrip p (x ++ [ch]) = pyRstrip p x := by
  simp [pyRstrip, List.reverse_append, List.dropWhile_cons, h]

theorem pyRstrip_idem (p : Char → Bool) (x : List Char) :
    pyRstrip p (pyRstrip p x) = pyRstrip p x := by
  simp [pyRstrip, List.reverse_reverse, List.dropWhile_idempotent]

theorem mem_pyRstrip {p : Char → Bool} {x : List Char} {c : Char}
    (h : c ∈ pyRstrip p x) : c ∈ x := by
  simp only [pyRstrip, List.mem_reverse] at h
  have := (List.dropWhile_sublist (p := p) (l := x.reverse)).subset h
  simpa using this

theorem nleList_idem (l : List Char) : nleList (nleList l) = nleList l := by
  have hra : '\r' ∉ replAll ['\r'] ['\n'] (replAll ['\r', '\n'] ['\n'] l) :=
    replFuel_singleton_not_mem (by decide) _ _ (Nat.lt_succ_self _)
  have h1 : nleList l =
      pyRstrip (fun c => c == '\n') (replAll ['\r'] ['\n'] (replAll ['\r', '\n'] ['\n'] l))
        ++ ['\n'] := rfl
  set a := replAll ['\r'] ['\n'] (replAll ['\r', '\n'] ['\n'] l) with ha
  set y := pyRstrip (fun c => c == '\n') a ++ ['\n'] with hy
  have hry : '\r' ∉ y := by
    intro hmem
    rcases List.mem_append.1 hmem with hm | hm
    · exact hra (mem_pyRstrip hm)
    · simp at hm
  have e1 : replAll ['\r', '\n'] ['\n'] y = y :=
    replFuel_not_occur _ _ (Nat.lt_succ_self _) hry
  have e2 : replAll ['\r'] ['\n'] y = y := by
    have : replFuel ['\r'] ['\n'] (y.length + 1) y = y :=
      replFuel_not_occur _ _ (Nat.lt_succ_self _) hry
    simpa [replAll] using this
  rw [h1]
  show pyRstrip (fun c => c == '\n') (replAll ['\r'] ['\n'] (replAll ['\r', '\n'] ['\n'] y))
      ++ ['\n'] = y
  rw [e1, e2, hy, pyRstrip_append_pos _ _ _ (by decide), pyRstrip_idem]

end Doc2md

namespace Doc2md

theorem statsExtends_trans {s1 s2 s3 : Stats}
    (h1 : StatsExtends s1 s2) (h2 : StatsExtends s2 s3) : StatsExtends s1 s3 := by
  obtain ⟨ho1, t1, ht1⟩ := h1
  obtain ⟨ho2, t2, ht2⟩ := h2
  exact ⟨ho2.trans ho1, t1 ++ t2, by rw [ht2, ht1, List.append_assoc]⟩

theorem cleanWhitespace_statsExtends (c : String) (s : Stats) :
    StatsExtends s (cleanWhitespace c s).2 :=
  ⟨rfl, ["whitespace_cleanup"], rfl⟩

theorem optimizeHeadings_statsExtends (c : String) (s : Stats) :
    StatsExtends s (optimizeHeadings c s).2 := by
  unfold optimizeHeadings
  dsimp only
  split
  · exact ⟨rfl, ["heading_optimization"], rfl⟩
  · exact ⟨rfl, [], by simp⟩

theorem optimizeTables_statsExtends (c : String) (s : Stats) :
    StatsExtends s (optimizeTables c s).2 := by
  unfold optimizeTables
  dsimp only
  split
  · exact ⟨rfl, ["table_optimization"], rfl⟩
  · exact ⟨rfl, [], by simp⟩

theorem optimizeLists_statsExtends (c : String) (s : Stats) :
    StatsExtends s (optimizeLists c s).2 := by
  unfold optimizeLists
  dsimp only
  split
  · exact ⟨rfl, ["list_optimization"], rfl⟩
  · exact ⟨rfl, [], by simp⟩

theorem optimizeLinks_statsExtends (c : String) (s : Stats) :
    StatsExtends s (optimizeLinks c s).2 := by
  unfold optimizeLinks
  dsimp only
  split
  · exact ⟨rfl, ["link_optimization"], rfl⟩
  · exact ⟨rfl, [], by simp⟩

theorem removeEmptySections_statsExtends (c : String) (s : Stats) :
    StatsExtends s (removeEmptySections c s).2 :=
  ⟨rfl, ["empty_section_removal"], rfl⟩

theorem normalizeLineEndingsPass_statsExtends (c : String) (s : Stats) :
    StatsExtends s (normalizeLineEndingsPass c s).2 :=
  ⟨rfl, ["line_ending_normalization"], rfl⟩

theorem runPasses_statsExtends (c : String) (s : Stats) :
    StatsExtends s (runPasses c s).2 := by
  unfold runPasses
  dsimp only
  exact statsExtends_trans (cleanWhitespace_statsExtends _ _)
    (statsExtends_trans (optimizeHeadings_statsExtends _ _)
      (statsExtends_trans (optimizeTables_statsExtends _ _)
        (statsExtends_trans (optimizeLists_statsExtends _ _)
          (statsExtends_trans (optimizeLinks_statsExtends _ _)
            (statsExtends_trans (removeEmptySections_statsExtends _ _)
              (normalizeLineEndingsPass_statsExtends _ _))))))

theorem optimizeMarkdown_stats (s : Stats) (c : String) :
    (optimizeMarkdown s c).1.stats.original_length = c.length ∧
    (∃ t, (optimizeMarkdown s c).1.stats.optimizations_applied
        = s.optimizations_applied ++ t) ∧
    (optimizeMarkdown s c).2 = (optimizeMarkdown s c).1.stats ∧
    (optimizeMarkdown s c).1.stats.optimized_length
        = (optimizeMarkdown s c).1.optimized_content.length := by
  obtain ⟨ho, t, ht⟩ := runPasses_statsExtends c (statsInit s c)
  unfold optimizeMarkdown optimizeMarkdownWith applyPassesReal
  dsimp only
  refine ⟨?_, ⟨t, ?_⟩, rfl, rfl⟩
  · simpa [statsInit] using ho
  · simpa [statsInit] using ht

end Doc2md

namespace Doc2md

theorem countElementText_counts (d : DocInfo) (e : Element) :
    (countElementText d e).table_count = d.table_count ∧
    (countElementText d e).heading_count = d.heading_count ∧
    (countElementText d e).paragraph_count = d.paragraph_count ∧
    (countElementText d e).list_count = d.list_count ∧
    (countElementText d e).formula_count = d.formula_count ∧
    (countElementText d e).total_characters = d.total_characters + elemChars e ∧
    (countElementText d e).total_words = d.total_words + elemWords e := by
  unfold countElementText elemChars elemWords
  cases e.text with
  | none => simp
  | some t =>
    by_cases h : t ≠ "" <;> simp [h]

theorem countElementLabel_counts (d : DocInfo) (e : Element) :
    (countElementLabel d e).table_count = d.table_count + catInd .table e ∧
    (countElementLabel d e).heading_count = d.heading_count + catInd .heading e ∧
    (countElementLabel d e).paragraph_count = d.paragraph_count + catInd .paragraph e ∧
    (countElementLabel d e).list_count = d.list_count + catInd .listCat e ∧
    (countElementLabel d e).formula_count = d.formula_count + catInd .formula e ∧
    (countElementLabel d e).total_characters = d.total_characters ∧
    (countElementLabel d e).total_words = d.total_words := by
  unfold countElementLabel catInd classifyLabel
  by_cases h1 : strContains (pyLower e.label) "table" = true
  · simp [h1]
  · by_cases h2 : (strContains (pyLower e.label) "heading"
        || strContains (pyLower e.label) "title") = true
    · simp [h1, h2]
    · by_cases h3 : (strContains (pyLower e.label) "paragraph"
          || strContains (pyLower e.label) "text") = true
      · simp [h1, h2, h3]
      · by_cases h4 : strContains (pyLower e.label) "list" = true
        · simp [h1, h2, h3, h4]
        · by_cases h5 : (strContains (pyLower e.label) "formula"
              || strContains (pyLower e.label) "equation") = true
          · simp [h1, h2, h3, h4, h5]
          · simp [h1, h2, h3, h4, h5]

theorem countElement_counts (d : DocInfo) (e : Element) :
    (countElement d e).table_count = d.table_count + catInd .table e ∧
    (countElement d e).heading_count = d.heading_count + catInd .heading e ∧
    (countElement d e).paragraph_count = d.paragraph_count + catInd .paragraph e ∧
    (countElement d e).list_count = d.list_count + catInd .listCat e ∧
    (countElement d e).formula_count = d.formula_count + catInd .formula e ∧
    (countElement d e).total_characters = d.total_characters + elemChars e ∧
    (countElement d e).total_words = d.total_words + elemWords e := by
  obtain ⟨t1, t2, t3, t4, t5, t6, t7⟩ := countElementText_counts (countElementLabel d e) e
  obtain ⟨l1, l2, l3, l4, l5, l6, l7⟩ := countElementLabel_counts d e
  unfold countElement
  exact ⟨t1.trans l1, t2.trans l2, t3.trans l3, t4.trans l4, t5.trans l5,
    by rw [t6, l6], by rw [t7, l7]⟩

theorem foldl_countElement_measure (f : DocInfo → Nat) (g : Element → Nat)
    (hf : ∀ d e, f (countElement d e) = f d + g e) :
    ∀ (es : List Element) (d : DocInfo),
      f (es.foldl countElement d) = f d + (es.map g).sum := by
  intro es
  induction es with
  | nil => intro d; simp
  | cons e es ih =>
    intro d
    simp only [List.foldl_cons, List.map_cons, List.sum_cons, ih, hf]
    omega

theorem foldl_countPage_measure (f : DocInfo → Nat) (g : Element → Nat)
    (hf : ∀ d e, f (countElement d e) = f d + g e) :
    ∀ (ps : List Page) (d : DocInfo),
      f (ps.foldl countPage d)
        = f d + ((ps.flatMap (fun p => p.elements.getD [])).map g).sum := by
  intro ps
  induction ps with
  | nil => intro d; simp
  | cons p ps ih =>
    intro d
    have hcp : f (countPage d p) = f d + ((p.elements.getD []).map g).sum := by
      cases hpe : p.elements with
      | none => simp [countPage, hpe]
      | some es => simp [countPage, hpe, foldl_countElement_measure f g hf]
    simp only [List.foldl_cons, List.flatMap_cons, List.map_append, List.sum_append, ih, hcp]
    omega

end Doc2md

namespace Doc2md

/-!
## Claim theorems
-/

/-- C1 (counterexample).  The claim states that when the Markdown content
upload succeeds and the subsequent metadata upload fails, the run still
reports success (status 200).  On the code, lambda_handler raises when
upload_content for the metadata object returns False, and the except branch
produces status 500: with every stage succeeding except the metadata upload,
the response status is 500, not 200. -/
theorem C1_counterexample :
    (lambdaHandler envMetaFail eventA).statusCode = 500 ∧
    ¬(lambdaHandler envMetaFail eventA).statusCode = 200 := by
  constructor <;> decide

/-- C1 (amended).  A metadata write failure after a successful content write
aborts the run with status 500 exactly like a content write failure; it is
not degraded to a warning. -/
theorem C1_amended (env : Env) (event : Event)
    (hv : (validateEvent event).1 = true)
    (hd : env.download_ok = true) (hds : env.docling_success = true) :
    (env.md_upload_ok = true → env.meta_upload_ok = false →
      (lambdaHandler env event).statusCode = 500) ∧
    (env.md_upload_ok = false → (lambdaHandler env event).statusCode = 500) := by
  constructor
  · intro hmd hme
    simp [lambdaHandler, hv, hd, hds, hmd, hme]
  · intro hmd
    simp [lambdaHandler, hv, hd, hds, hmd]

/-- C1 (witness for the amended theorem). -/
theorem C1_amended_witness :
    (lambdaHandler envMetaFail eventA).statusCode = 500 ∧
    (lambdaHandler envMdFail eventA).statusCode = 500 :=
  ⟨(C1_amended envMetaFail eventA (by decide) rfl rfl).1 rfl rfl,
   (C1_amended envMdFail eventA (by decide) rfl rfl).2 rfl⟩

/-- C2 (counterexample).  On the end-to-end input the pipeline produces
"# Title\n\ntext\n\n\n- item1\n\n- item2\n": the blank-line run before the
list is two blank lines, not one, and a blank line is inserted between the
two list items, so the list block is not preserved unchanged and the output
differs from the text the claim describes. -/
theorem C2_counterexample :
    (optimizeMarkdown {} e2eInput).1.optimized_content = e2eActual ∧
    strContains e2eActual "text\n\n\n- item1" = true ∧
    strContains e2eActual "- item1\n\n- item2" = true ∧
    strContains e2eActual "text\n\n- item1" = false ∧
    e2eActual ≠ e2eClaimed := by
  refine ⟨by decide, by decide, by decide, by decide, by decide⟩

/-- C2 (amended).  On input "#Title\ntext\n\n\n\n- item1\n- item2\n" the
pipeline renders the heading as "# Title" followed by one blank line, leaves
two blank lines before the list, inserts a blank line between the two list
items, ends the content with exactly one trailing newline, and reports
headings_processed = 1: the full output is
"# Title\n\ntext\n\n\n- item1\n\n- item2\n". -/
theorem C2_amended :
    (optimizeMarkdown {} e2eInput).1.optimized_content =
      "# Title\n\ntext\n\n\n- item1\n\n- item2\n" ∧
    (optimizeMarkdown {} e2eInput).1.stats.headings_processed = 1 := by
  constructor <;> decide

/-- C3 (counterexample).  The full normalization pipeline is not idempotent:
on "a\n# H\nb" one application yields "a\n\n# H\n\nb\n" and a second
application yields "a\n\n# H\n\n\nb\n" (the heading pass re-inserts blank
lines around the already-spaced heading). -/
theorem C3_counterexample :
    normalizeContent (normalizeContent nonIdemInput) ≠ normalizeContent nonIdemInput ∧
    normalizeContent nonIdemInput = "a\n\n# H\n\nb\n" ∧
    normalizeContent (normalizeContent nonIdemInput) = "a\n\n# H\n\n\nb\n" := by
  refine ⟨by decide, by decide, by decide⟩

/-- C3 (amended).  The full pipeline normalize∘normalize differs from
normalize in general (the heading and list passes insert additional blank
lines on re-application), but the line-ending normalization pass (pass 7) is
idempotent for every input, as the claim asserts for that pass. -/
theorem C3_amended (s : String) :
    normalizeLineEndingsContent (normalizeLineEndingsContent s)
      = normalizeLineEndingsContent s := by
  show String.mk (nleList (String.mk (nleList s.data)).data) = String.mk (nleList s.data)
  rw [show (String.mk (nleList s.data)).data = nleList s.data from rfl, nleList_idem]

/-- C4 (counterexample).  For a valid event with no metadata_key, the claim
states no metadata object is uploaded; on the code a metadata object is
uploaded to a default key derived from output_key, with content type
application/json. -/
theorem C4_counterexample :
    eventNoMeta.metadata_key = none ∧
    (lambdaHandler envAllOk eventNoMeta).uploads =
      [("processed/sample.md", "text/markdown"),
       ("processed/sample_metadata.json", "application/json")] := by
  constructor <;> decide

/-- C4 (amended).  On a successful run the metadata report object is always
uploaded, whether or not a metadata destination was supplied; when the event
carries no metadata_key the destination defaults to output_key with ".md"
replaced by "_metadata.json". -/
theorem C4_amended (env : Env) (event : Event)
    (hv : (validateEvent event).1 = true)
    (hd : env.download_ok = true) (hds : env.docling_success = true)
    (hmd : env.md_upload_ok = true) (hme : env.meta_upload_ok = true)
    (hnm : event.metadata_key = none) :
    (lambdaHandler env event).statusCode = 200 ∧
    (lambdaHandler env event).uploads =
      [(event.output_key, "text/markdown"),
       (String.mk (replAll ".md".data "_metadata.json".data event.output_key.data),
        "application/json")] := by
  constructor <;> simp [lambdaHandler, hv, hd, hds, hmd, hme, hnm]

/-- C4 (witness for the amended theorem). -/
theorem C4_amended_witness :
    (lambdaHandler envAllOk eventNoMeta).statusCode = 200 ∧
    (lambdaHandler envAllOk eventNoMeta).uploads =
      [(eventNoMeta.output_key, "text/markdown"),
       (String.mk (replAll ".md".data "_metadata.json".data eventNoMeta.output_key.data),
        "application/json")] :=
  C4_amended envAllOk eventNoMeta (by decide) rfl rfl rfl rfl rfl

/-- C5 (counterexample).  The link pass is claimed to rewrite
[text]( url ) to [text](url) with no retained whitespace; on the code the
greedy capture groups keep the whitespace preceding the closing bracket or
parenthesis, so "[text]( url )" becomes "[text](url )", which still contains
whitespace between the URL and the closing parenthesis. -/
theorem C5_counterexample :
    (optimizeLinks "[text]( url )" {}).1 = "[text](url )" ∧
    "[text](url )" ≠ "[text](url)" ∧
    strContains "[text](url )" "url )" = true := by
  refine ⟨by decide, by decide, by decide⟩

/-- C5 (amended).  The link pass trims whitespace immediately after the
opening bracket and the opening parenthesis, but whitespace preceding the
closing bracket or parenthesis is captured into the text/URL groups and
retained; links_processed equals the number of [text](url) matches.  On
"[text]( url )" the result is "[text](url )" with links_processed = 1, and
on "[ text ]( url )" the result is "[text ](url )" with links_processed = 1. -/
theorem C5_amended :
    (optimizeLinks "[text]( url )" {}).1 = "[text](url )" ∧
    (optimizeLinks "[text]( url )" {}).2.links_processed = 1 ∧
    (optimizeLinks "[ text ]( url )" {}).1 = "[text ](url )" ∧
    (optimizeLinks "[ text ]( url )" {}).2.links_processed = 1 := by
  refine ⟨by decide, by decide, by decide, by decide⟩

/-- C6 (confirmed).  Label classification is case-insensitive substring
matching with first-match precedence table > heading/title > paragraph/text >
list > formula/equation: "table-heading" is classified as a table; an
unmatched label such as "footnote" is classified into no category; each
element contributes to at most one category counter; every category counter
of _extract_document_info equals the number of elements classified into that
category; and total_characters / total_words accumulate over all elements
with non-empty text regardless of category. -/
theorem C6_classification :
    classifyLabel "table-heading" = some Category.table ∧
    classifyLabel "footnote" = none ∧
    (∀ e : Element,
      catInd .table e + catInd .heading e + catInd .paragraph e
        + catInd .listCat e + catInd .formula e ≤ 1) ∧
    ∀ doc : StructuredDocument,
      (extractDocumentInfo (.ok doc)).table_count
          = ((docElements doc).map (catInd .table)).sum ∧
      (extractDocumentInfo (.ok doc)).heading_count
          = ((docElements doc).map (catInd .heading)).sum ∧
      (extractDocumentInfo (.ok doc)).paragraph_count
          = ((docElements doc).map (catInd .paragraph)).sum ∧
      (extractDocumentInfo (.ok doc)).list_count
          = ((docElements doc).map (catInd .listCat)).sum ∧
      (extractDocumentInfo (.ok doc)).formula_count
          = ((docElements doc).map (catInd .formula)).sum ∧
      (extractDocumentInfo (.ok doc)).total_characters
          = ((docElements doc).map elemChars).sum ∧
      (extractDocumentInfo (.ok doc)).total_words
          = ((docElements doc).map elemWords).sum := by
  refine ⟨by decide, by decide, ?_, ?_⟩
  · intro e
    unfold catInd
    rcases h : classifyLabel e.label with _ | c
    · simp [h]
    · cases c <;> simp [h]
  · intro doc
    cases hp : doc.pages with
    | none => simp [extractDocumentInfo, docElements, hp]
    | some ps =>
      have hT := foldl_countPage_measure (fun d => d.table_count) (catInd .table)
        (fun d e => (countElement_counts d e).1) ps { page_count := ps.length }
      have hH := foldl_countPage_measure (fun d => d.heading_count) (catInd .heading)
        (fun d e => (countElement_counts d e).2.1) ps { page_count := ps.length }
      have hP := foldl_countPage_measure (fun d => d.paragraph_count) (catInd .paragraph)
        (fun d e => (countElement_counts d e).2.2.1) ps { page_count := ps.length }
      have hL := foldl_countPage_measure (fun d => d.list_count) (catInd .listCat)
        (fun d e => (countElement_counts d e).2.2.2.1) ps { page_count := ps.length }
      have hF := foldl_countPage_measure (fun d => d.formula_count) (catInd .formula)
        (fun d e => (countElement_counts d e).2.2.2.2.1) ps { page_count := ps.length }
      have hC := foldl_countPage_measure (fun d => d.total_characters) elemChars
        (fun d e => (countElement_counts d e).2.2.2.2.2.1) ps { page_count := ps.length }
      have hW := foldl_countPage_measure (fun d => d.total_words) elemWords
        (fun d e => (countElement_counts d e).2.2.2.2.2.2) ps { page_count := ps.length }
      simp only [extractDocumentInfo, docElements, hp, Option.getD_some] at hT hH hP hL hF hC hW ⊢
      exact ⟨by rw [hT]; exact Nat.zero_add _, by rw [hH]; exact Nat.zero_add _,
        by rw [hP]; exact Nat.zero_add _, by rw [hL]; exact Nat.zero_add _,
        by rw [hF]; exact Nat.zero_add _, by rw [hC]; exact Nat.zero_add _,
        by rw [hW]; exact Nat.zero_add _⟩

/-- C7 (confirmed).  Structural-stats extraction never raises: modeling the
catch-all except branch, any exception message e yields a record with every
counter zero and extraction_error = e, and a document with no pages attribute
yields a record with every counter zero and no error field. -/
theorem C7_graceful_degradation :
    (∀ e : String, extractDocumentInfo (.error e) =
      { page_count := 0, table_count := 0, heading_count := 0, paragraph_count := 0,
        list_count := 0, formula_count := 0, total_characters := 0, total_words := 0,
        extraction_error := some e }) ∧
    extractDocumentInfo (.ok { pages := none }) =
      { page_count := 0, table_count := 0, heading_count := 0, paragraph_count := 0,
        list_count := 0, formula_count := 0, total_characters := 0, total_words := 0,
        extraction_error := none } :=
  ⟨fun _ => rfl, rfl⟩

/-- C8 (confirmed).  If the pass pipeline raises, optimize_markdown returns
the original input unmodified together with success = false and the error
message, and the orchestrator then uploads the unmodified extracted text and
the run still succeeds with status 200. -/
theorem C8_fallback :
    (∀ (ap : String → Stats → Except (String × Stats) (String × Stats))
       (s : Stats) (c e : String) (st : Stats),
      ap c (statsInit s c) = .error (e, st) →
      (optimizeMarkdownWith ap s c).1.success = false ∧
      (optimizeMarkdownWith ap s c).1.optimized_content = c ∧
      (optimizeMarkdownWith ap s c).1.error = some e) ∧
    (∀ (env : Env) (event : Event) (e : String) (st : Stats),
      (validateEvent event).1 = true → env.download_ok = true →
      env.docling_success = true → env.md_upload_ok = true →
      env.meta_upload_ok = true →
      env.applyPasses env.docling_markdown (statsInit {} env.docling_markdown)
        = .error (e, st) →
      (lambdaHandler env event).markdown_body = some env.docling_markdown ∧
      (lambdaHandler env event).statusCode = 200) := by
  constructor
  · intro ap s c e st h
    simp [optimizeMarkdownWith, h]
  · intro env event e st hv hd hds hmd hme hap
    simp [lambdaHandler, optimizeMarkdownWith, hv, hd, hds, hmd, hme, hap]

/-- C8 (witness). -/
theorem C8_fallback_witness :
    ((optimizeMarkdownWith failingPasses {} "raw text").1.success = false ∧
     (optimizeMarkdownWith failingPasses {} "raw text").1.optimized_content = "raw text" ∧
     (optimizeMarkdownWith failingPasses {} "raw text").1.error = some "pass failure") ∧
    ((lambdaHandler envOptFail eventA).markdown_body = some "hello" ∧
     (lambdaHandler envOptFail eventA).statusCode = 200) :=
  ⟨C8_fallback.1 failingPasses {} "raw text" "pass failure" _ rfl,
   C8_fallback.2 envOptFail eventA "pass failure" _ (by decide) rfl rfl rfl rfl rfl⟩

/-- C9 (confirmed).  The optimization ratio of the metadata report equals
round((original_length - optimized_length) / original_length * 100, 2) when
original_length > 0, and equals exactly 0 when original_length = 0, with no
division error (the zero case never divides). -/
theorem C9_optimization_ratio (ms : Stats) :
    (markdownOutputSection ms).optimization_ratio = calculateOptimizationRatio ms ∧
    (ms.original_length = 0 → (markdownOutputSection ms).optimization_ratio = 0) ∧
    (0 < ms.original_length →
      (markdownOutputSection ms).optimization_ratio
        = pyRound2 (((ms.original_length : ℚ) - (ms.optimized_length : ℚ))
            / (ms.original_length : ℚ) * 100)) := by
  refine ⟨rfl, ?_, ?_⟩
  · intro h
    simp [markdownOutputSection, calculateOptimizationRatio, h]
  · intro h
    have hne : ms.original_length ≠ 0 := Nat.pos_iff_ne_zero.mp h
    simp [markdownOutputSection, calculateOptimizationRatio, hne]

/-- C9 (witness). -/
theorem C9_optimization_ratio_witness :
    (markdownOutputSection { original_length := 0, optimized_length := 7 }).optimization_ratio
        = 0 ∧
    (markdownOutputSection { original_length := 200, optimized_length := 150 }).optimization_ratio
        = 25 := by
  refine ⟨(C9_optimization_ratio _).2.1 rfl, ?_⟩
  rw [(C9_optimization_ratio { original_length := 200, optimized_length := 150 }).2.2
    (by norm_num)]
  norm_num [pyRound2, roundHalfEven]

/-- C10 (confirmed).  The stats record lives on the optimizer instance: after
a second optimize_markdown call on the same instance, the returned
optimizations_applied list extends the list returned by the first call (the
log grows monotonically across calls), while original_length is overwritten
to the current input's length on each call and optimized_length is
overwritten to the current output's length. -/
theorem C10_stats_accumulation (s : Stats) (c1 c2 : String) :
    (∃ t, (optimizeMarkdown ((optimizeMarkdown s c1).2) c2).1.stats.optimizations_applied
        = (optimizeMarkdown s c1).1.stats.optimizations_applied ++ t) ∧
    (optimizeMarkdown s c1).1.stats.original_length = c1.length ∧
    (optimizeMarkdown ((optimizeMarkdown s c1).2) c2).1.stats.original_length = c2.length ∧
    (optimizeMarkdown ((optimizeMarkdown s c1).2) c2).1.stats.optimized_length
        = (optimizeMarkdown ((optimizeMarkdown s c1).2) c2).1.optimized_content.length := by
  obtain ⟨h1o, ⟨t1, h1t⟩, h1eq, h1len⟩ := optimizeMarkdown_stats s c1
  obtain ⟨h2o, ⟨t2, h2t⟩, h2eq, h2len⟩ :=
    optimizeMarkdown_stats ((optimizeMarkdown s c1).2) c2
  refine ⟨⟨t2, ?_⟩, h1o, h2o, h2len⟩
  rw [h2t, h1eq]

end Doc2md
